import Mathlib

/-!
Verification of the Dynamic Tool Dispatch and Multi-Target Routing Engine of
the ai-agent-platform repository.  The definitions below are a shallow
embedding of the Python sources under `backend/AgentPlatform.Core`:

* `core/dynamic_tool_manager.py` — tool factory, parameter merge, query lookup;
* `core/master_agent.py`        — sanitizer, comparison detection, dispatch,
                                  execution-trace construction;
* `core/agent_manager.py`       — agent assembly from configuration;
* `api_server.py`               — reload of the agent system.

Python dictionaries are modelled as insertion-ordered association lists,
Python values as the inductive `PValue`, machine behaviour (exceptions) as
`Except`/`Option`, and the external decision service / LLM calls as explicit
parameters of the dispatch functions.
-/

namespace AgentPlatform

/-- Model of the Python values that flow through tool parameter maps:
strings, integers, nested dicts (JSON objects) and `None`. -/
inductive PValue where
  | vStr : String → PValue
  | vInt : Int → PValue
  | vDict : List (String × PValue) → PValue
  | vNone : PValue

/-- Python truthiness (`bool(v)`) for the modelled values: the empty string,
zero, the empty dict and `None` are falsy. -/
def PValue.truthy : PValue → Bool
  | .vStr s => !s.data.isEmpty
  | .vInt n => n != 0
  | .vDict l => !l.isEmpty
  | .vNone => false

/-- A Python `dict` keyed by strings, as an insertion-ordered association
list (keys are unique in every dict produced by the source code). -/
abbrev PDict : Type := List (String × PValue)

/-- Dictionary lookup `d.get(k)` / `d[k]`: the value at the first matching
key, if any. -/
def dictLookup (d : PDict) (k : String) : Option PValue :=
  (List.find? (fun p => p.1 == k) d).map Prod.snd

/-- Python dict merge `{**a, **b}`: the keys of `a` in order, each
overridden by `b`'s value when `b` also binds the key, followed by the keys
of `b` that are absent from `a`. -/
def pyMerge (a b : PDict) : PDict :=
  List.append
    (List.map (fun p => (p.1, (dictLookup b p.1).getD p.2)) a)
    (List.filter (fun p => (dictLookup a p.1).isNone) b)

/-- Embedding of `DynamicTool._run` line 143
(`merged_params = {**self._agent_config, **kwargs}`): the parameter map
handed to the tool handler, built from the agent's per-tool configuration
and the decision service's call-time keyword arguments. -/
def mergedParams (agentConfig : PDict) (kwargs : PDict) : PDict :=
  pyMerge agentConfig kwargs

/-! Auxiliary lemmas about association-list lookup. -/

theorem dictLookup_nil (k : String) : dictLookup ([] : PDict) k = none := rfl

theorem dictLookup_append (a b : PDict) (k : String) :
    dictLookup (List.append a b) k =
      ((dictLookup a k).rec (dictLookup b k) (fun v => some v)) := by
  induction a with
  | nil => rfl
  | cons p t ih =>
    by_cases h : p.1 = k
    · simp [dictLookup, List.find?, h]
    · have h' : (p.1 == k) = false := by simpa using h
      simpa [dictLookup, List.find?, h'] using ih

theorem dictLookup_mapValues (a : PDict) (f : String → PValue → PValue) (k : String) :
    dictLookup (List.map (fun p => (p.1, f p.1 p.2)) a) k =
      (dictLookup a k).map (f k) := by
  induction a with
  | nil => rfl
  | cons p t ih =>
    by_cases h : p.1 = k
    · simp [dictLookup, List.find?, h]
    · have h' : (p.1 == k) = false := by simpa using h
      simpa [dictLookup, List.find?, h'] using ih

theorem dictLookup_filterKeys (b : PDict) (P : String → Bool) (k : String) :
    dictLookup (List.filter (fun p => P p.1) b) k =
      if P k then dictLookup b k else none := by
  induction b with
  | nil => simp [dictLookup]
  | cons p t ih =>
    rw [List.filter_cons]
    by_cases hp : P p.1
    · rw [if_pos hp]
      by_cases hk : p.1 = k
      · subst hk
        simp [dictLookup, List.find?, hp]
      · have h' : (p.1 == k) = false := by simpa using hk
        have hl : dictLookup (p :: List.filter (fun q => P q.1) t) k
            = dictLookup (List.filter (fun q => P q.1) t) k := by
          simp [dictLookup, List.find?, h']
        have hr : dictLookup (p :: t) k = dictLookup t k := by
          simp [dictLookup, List.find?, h']
        rw [hl, hr]
        exact ih
    · rw [if_neg hp]
      by_cases hk : p.1 = k
      · subst hk
        rw [ih]
        simp [hp]
      · have h' : (p.1 == k) = false := by simpa using hk
        have hr : dictLookup (p :: t) k = dictLookup t k := by
          simp [dictLookup, List.find?, h']
        rw [ih, hr]

/-- Lookup in a Python merge `{**a, **b}`: `b`'s binding wins whenever both
dicts bind the key. -/
theorem dictLookup_pyMerge (a b : PDict) (k : String) :
    dictLookup (pyMerge a b) k =
      match dictLookup b k with
      | some v => some v
      | none => dictLookup a k := by
  unfold pyMerge
  rw [dictLookup_append]
  rw [dictLookup_mapValues a (fun key v => (dictLookup b key).getD v) k]
  rw [dictLookup_filterKeys b (fun key => (dictLookup a key).isNone) k]
  cases ha : dictLookup a k with
  | none => cases hb : dictLookup b k <;> simp [ha]
  | some v => cases hb : dictLookup b k <;> simp [ha, hb]

/-! Identifier sanitizer, from `MasterAgent._sanitize_sub_agent_tools`
(`core/master_agent.py` lines 34-60). -/

/-- Character class `[a-zA-Z0-9_.-]` of the substitution regex in
`_sanitize_sub_agent_tools`. -/
def validChar (c : Char) : Bool :=
  ('a' ≤ c && c ≤ 'z') || ('A' ≤ c && c ≤ 'Z') || ('0' ≤ c && c ≤ '9')
    || c == '_' || c == '.' || c == '-'

/-- Character class `[a-zA-Z_]` of the leading-character check
`re.match(r'^[a-zA-Z_]', ...)`. -/
def startChar (c : Char) : Bool :=
  ('a' ≤ c && c ≤ 'z') || ('A' ≤ c && c ≤ 'Z') || c == '_'

/-- Sanitization on the character list: replace every character outside
`[a-zA-Z0-9_.-]` with `'_'`, prepend `'_'` unless the result starts with a
letter or underscore (an empty result fails the `re.match` and is also
prefixed), then truncate to 64 characters. -/
def sanitizeChars (cs : List Char) : List Char :=
  let replaced := cs.map (fun c => if validChar c then c else '_')
  let headOk :=
    match replaced with
    | [] => '_' :: replaced
    | c :: _ => if startChar c then replaced else '_' :: replaced
  headOk.take 64

/-- Embedding of the per-name body of `MasterAgent._sanitize_sub_agent_tools`:
Gemini-compatible sanitization of one agent/tool name. -/
def sanitizeName (s : String) : String :=
  String.mk (sanitizeChars s.data)

/-- Boolean matcher for the regular expression
`^[A-Za-z_][A-Za-z0-9_.-]{0,63}$` on a character list. -/
def matchesGeminiChars : List Char → Bool
  | [] => false
  | c :: rest => startChar c && decide (rest.length ≤ 63) && rest.all validChar

/-- Boolean matcher for the regular expression
`^[A-Za-z_][A-Za-z0-9_.-]{0,63}$`. -/
def matchesGeminiName (s : String) : Bool :=
  matchesGeminiChars s.data

theorem startChar_valid {c : Char} (h : startChar c = true) : validChar c = true := by
  unfold startChar at h
  unfold validChar
  rcases Bool.or_eq_true_iff.mp h with h' | hu
  · rcases Bool.or_eq_true_iff.mp h' with h1 | h2
    · simp [h1]
    · simp [h2]
  · simp [hu]

theorem validChar_underscore : validChar '_' = true := by decide

theorem startChar_underscore : startChar '_' = true := by decide

/-- Every character of `sanitizeChars cs` lies in `[a-zA-Z0-9_.-]`,
the list is nonempty, its head is a letter or underscore, and its length is
at most 64. -/
theorem sanitizeChars_spec (cs : List Char) :
    (sanitizeChars cs).all validChar = true ∧
    (sanitizeChars cs) ≠ [] ∧
    (∀ c rest, sanitizeChars cs = c :: rest → startChar c = true) ∧
    (sanitizeChars cs).length ≤ 64 := by
  unfold sanitizeChars
  set replaced := cs.map (fun c => if validChar c then c else '_') with hrep
  have hall : replaced.all validChar = true := by
    rw [List.all_eq_true]
    intro c hc
    rw [hrep, List.mem_map] at hc
    obtain ⟨c₀, _, hc₀⟩ := hc
    by_cases h : validChar c₀
    · rw [← hc₀]; simp [h]
    · rw [← hc₀]; simp [h, validChar_underscore]
  cases hr : replaced with
  | nil =>
    refine ⟨by decide, by decide, ?_, by decide⟩
    intro c rest h
    simp only [List.take] at h
    cases h
    exact startChar_underscore
  | cons c₀ t =>
    by_cases hs : startChar c₀
    · simp only [hs, if_pos]
      have hallct : (c₀ :: t).all validChar = true := hr ▸ hall
      refine ⟨?_, ?_, ?_, ?_⟩
      · rw [List.all_eq_true] at hallct ⊢
        intro x hx
        exact hallct x (List.mem_of_mem_take hx)
      · simp
      · intro c rest h
        simp only [List.take] at h
        exact (List.cons.injEq _ _ _ _ ▸ h).1 ▸ hs
      · simp
    · simp only [hs, if_neg, Bool.not_eq_true]
      have hallct : ('_' :: c₀ :: t).all validChar = true := by
        rw [List.all_cons, validChar_underscore, Bool.true_and]
        exact hr ▸ hall
      refine ⟨?_, ?_, ?_, ?_⟩
      · rw [List.all_eq_true] at hallct ⊢
        intro x hx
        exact hallct x (List.mem_of_mem_take hx)
      · simp
      · intro c rest h
        simp only [List.take] at h
        exact (List.cons.injEq _ _ _ _ ▸ h).1 ▸ startChar_underscore
      · simp

/-- Sanitization fixes every list that already satisfies the sanitized-name
invariants. -/
theorem sanitizeChars_fixed (l : List Char)
    (hall : l.all validChar = true)
    (hhead : ∀ c rest, l = c :: rest → startChar c = true)
    (hlen : l.length ≤ 64) (hne : l ≠ []) :
    sanitizeChars l = l := by
  unfold sanitizeChars
  have hmap : l.map (fun c => if validChar c then c else '_') = l := by
    have := List.all_eq_true.mp hall
    calc l.map (fun c => if validChar c then c else '_')
        = l.map id := List.map_congr_left (fun c hc => by simp [this c hc])
      _ = l := List.map_id l
  rw [hmap]
  cases hl : l with
  | nil => exact absurd hl hne
  | cons c rest =>
    have hc : startChar c = true := hhead c rest hl
    simp only [hc, if_pos]
    exact List.take_of_length_le (hl ▸ hlen)

/-! Tool manifest and the credential-scoped tool factory, from
`core/dynamic_tool_manager.py`. -/

/-- Parameter entry of a tool definition in `tools.json`, as read by
`DynamicToolManager._create_tool_instance` (`type`, `required`, `default`,
`is_credential`, plus a free-text description). -/
structure ParameterSpec where
  type : String
  required : Bool
  default : Option PValue
  isCredential : Bool

/-- Tool definition entry of `tools.json`, with the fields accessed by
`DynamicToolManager.create_dynamic_tool`. -/
structure ToolConfig where
  id : String
  name : String
  description : String
  file : String
  parameters : List (String × ParameterSpec)

/-- Embedding of `DynamicToolManager.get_tool_config`: the first manifest
entry with the requested id. -/
def getToolConfig (manifest : List ToolConfig) (toolId : String) : Option ToolConfig :=
  manifest.find? (fun tc => tc.id == toolId)

/-- One field of the dynamically created pydantic input model:
`isRequiredField` is true exactly when the `Field` carries no default
(pydantic then rejects a call that omits it). -/
structure SchemaField where
  fieldName : String
  isRequiredField : Bool
  defaultValue : Option PValue

/-- Default used for an `object`-typed parameter
(`default_value or {}` in the source). -/
def schemaObjectDefault (d : Option PValue) : PValue :=
  match d with
  | some v => if v.truthy then v else PValue.vDict []
  | none => PValue.vDict []

/-- Embedding of the per-parameter branch of
`DynamicToolManager._create_tool_instance` (lines 94-119): every declared
type compiles `required` with no `default` into a required schema field and
everything else into an optional field carrying the declared default. -/
def compileSchemaField (pname : String) (p : ParameterSpec) : SchemaField :=
  if p.type == "string" then
    (if p.required && p.default.isNone then ⟨pname, true, none⟩ else ⟨pname, false, p.default⟩)
  else if p.type == "integer" then
    (if p.required && p.default.isNone then ⟨pname, true, none⟩ else ⟨pname, false, p.default⟩)
  else if p.type == "object" then
    (if p.required && p.default.isNone then ⟨pname, true, none⟩
     else ⟨pname, false, some (schemaObjectDefault p.default)⟩)
  else
    (if p.required && p.default.isNone then ⟨pname, true, none⟩ else ⟨pname, false, p.default⟩)

/-- Embedding of the schema-construction loop of `_create_tool_instance`
(lines 91-123): credential parameters are excluded, the rest are compiled
into pydantic fields. -/
def compileSchema (ps : List (String × ParameterSpec)) : List SchemaField :=
  (ps.filter (fun p => !p.2.isCredential)).map (fun p => compileSchemaField p.1 p.2)

/-- A built dynamic tool instance: the state that `_create_tool_instance`
stores on the returned `DynamicTool` object (its `name` is the tool id, the
display name is kept for reference, and the agent's per-tool configuration
is bound for later merging). -/
structure DynamicToolInst where
  name : String
  displayName : String
  description : String
  file : String
  argsSchema : List SchemaField
  toolParameters : List (String × ParameterSpec)
  agentConfig : PDict

/-- Embedding of `DynamicToolManager.create_dynamic_tool` (lines 54-84)
together with `_create_tool_instance` (lines 86-344): it raises
(`ValueError`) exactly when the tool id has no manifest entry, and otherwise
returns the configured instance; the agent's configuration is stored
unvalidated and the required/default information goes into the call-time
schema only. -/
def createDynamicTool (manifest : List ToolConfig) (toolId : String)
    (agentToolConfig : PDict) : Except String DynamicToolInst :=
  match getToolConfig manifest toolId with
  | none => .error ("Tool configuration not found for tool ID: " ++ toolId)
  | some tc =>
      .ok { name := toolId, displayName := tc.name, description := tc.description,
            file := tc.file, argsSchema := compileSchema tc.parameters,
            toolParameters := tc.parameters, agentConfig := agentToolConfig }

/-- Whether `create_dynamic_tool` returns normally (does not raise). -/
def buildSucceeds (manifest : List ToolConfig) (toolId : String)
    (agentToolConfig : PDict) : Bool :=
  match createDynamicTool manifest toolId agentToolConfig with
  | .ok _ => true
  | .error _ => false

/-- Agent definition entry of `agents.json`, with the fields accessed by
`AgentManager.create_sub_agent` (the `llm_config` block is opaque to the
dispatch core and omitted). -/
structure AgentConfig where
  agentName : String
  description : String
  tools : List String
  toolConfigs : List (String × PDict)

/-- `tool_configs.get(tool_id, {})` of
`DynamicToolManager.create_tools_for_agent` line 370. -/
def lookupToolConfigEntry (toolConfigs : List (String × PDict)) (toolId : String) : PDict :=
  ((toolConfigs.find? (fun p => p.1 == toolId)).map Prod.snd).getD []

/-- Embedding of `DynamicToolManager.create_tools_for_agent` (lines
346-380): every entry of the agent's ordered tool-id list is looked up in
the manifest; unresolvable ids are skipped with a warning and a failing
creation is caught and skipped, otherwise the created instance is appended. -/
def createToolsForAgent (manifest : List ToolConfig) (config : AgentConfig) :
    List DynamicToolInst :=
  config.tools.filterMap (fun toolId =>
    match getToolConfig manifest toolId with
    | none => none
    | some _ =>
        match createDynamicTool manifest toolId
            (lookupToolConfigEntry config.toolConfigs toolId) with
        | .ok inst => some inst
        | .error _ => none)

/-- An assembled sub-agent as the master agent sees it: a named, described
tool wrapping the executor (`create_agent_tool` in
`core/agent_manager.py`). -/
structure SubAgent where
  name : String
  description : String
  tools : List DynamicToolInst

/-- Embedding of `AgentManager.create_sub_agent` (lines 32-272).  The
legacy registry `self.available_tools` is initialized to `{}` and never
populated anywhere in the code base, so the legacy attach loop (lines
60-74, the only place that deduplicates by resolved display name) adds
nothing; the assembled tool list is exactly the dynamically created one,
and the call raises (`ValueError`) exactly when that list is empty. -/
def createSubAgent (manifest : List ToolConfig) (config : AgentConfig) :
    Except String SubAgent :=
  let agentTools := createToolsForAgent manifest config
  if agentTools.isEmpty then
    .error ("No valid tools found for agent " ++ config.agentName)
  else
    .ok { name := config.agentName, description := config.description, tools := agentTools }

/-! Router / dispatcher, from `core/master_agent.py`. -/

/-- Boolean substring test on character lists, modelling Python's
`needle in haystack` on strings. -/
def listContainsSub (needle : List Char) : List Char → Bool
  | [] => needle.isEmpty
  | c :: rest => needle.isPrefixOf (c :: rest) || listContainsSub needle rest

/-- Python `needle in haystack` on strings. -/
def strInStr (needle haystack : String) : Bool :=
  listContainsSub needle.data haystack.data

/-- Python `str.lower()` (ASCII case folding, character by character). -/
def pyLower (s : String) : String :=
  String.mk (s.data.map Char.toLower)

/-- The fixed comparison-indicating phrase list of
`MasterAgent._detect_comparison_request` (lines 72-76). -/
def comparisonKeywords : List String :=
  ["so sánh", "compare", "chọn giữa", "choose between", "khác nhau", "difference",
   "nên chọn", "should choose", "phù hợp hơn", "more suitable", "tốt hơn", "better",
   "ưu nhược điểm", "pros and cons", "lựa chọn", "choice", "quyết định", "decide"]

/-- The category keyword aliases of `_detect_comparison_request`
(lines 78-81). -/
def modelKeywords : List (String × List String) :=
  [("fnb", ["fnb", "f&b", "food", "beverage", "nhà hàng", "restaurant",
            "quán ăn", "món ăn", "thức uống"]),
   ("booking", ["booking", "đặt phòng", "hotel", "khách sạn", "resort",
                "homestay", "accommodation"])]

/-- Result value of `_detect_comparison_request`. -/
structure ComparisonAnalysis where
  isComparison : Bool
  models : List String
  comparisonType : Option String

/-- Embedding of `MasterAgent._detect_comparison_request` (lines 62-96):
a case-insensitive substring scan for comparison phrases, the ordered list
of categories with at least one alias occurring in the input, and the
activation flag `is_comparison and len(detected_models) >= 2`. -/
def detectComparisonRequest (userInput : String) : ComparisonAnalysis :=
  let isCmp := comparisonKeywords.any (fun kw => strInStr (pyLower kw) (pyLower userInput))
  let detectedModels :=
    (modelKeywords.filter
      (fun mk => mk.2.any (fun kw => strInStr (pyLower kw) (pyLower userInput)))).map Prod.fst
  { isComparison := isCmp && decide (2 ≤ detectedModels.length),
    models := detectedModels,
    comparisonType :=
      if isCmp && !detectedModels.isEmpty then some "business_models" else none }

/-- Name test of `MasterAgent._find_agents_by_model_type` line 113: the
lowercased agent name contains `sale_support_<model>` or `<model>`. -/
def agentNameMatches (modelType : String) (a : SubAgent) : Bool :=
  strInStr ("sale_support_" ++ modelType) (pyLower a.name)
    || strInStr modelType (pyLower a.name)

/-- Embedding of `MasterAgent._find_agents_by_model_type` (lines 98-117):
for each detected category, the first assembled agent whose name matches;
categories without a match contribute nothing. -/
def findAgentsByModelType (modelTypes : List String) (agents : List SubAgent) :
    List SubAgent :=
  modelTypes.filterMap (fun mt => agents.find? (agentNameMatches mt))

/-- An agent action of the executor's intermediate steps (the
`action.tool` / `action.tool_input` pair read by
`process_request_with_details`). -/
structure AgentAction where
  tool : String
  toolInput : String

/-- One recorded execution step. -/
structure ExecutionStep where
  toolName : String
  toolInput : String
  observation : String

/-- The detailed execution result returned by
`MasterAgent.process_request_with_details`. -/
structure ExecutionResult where
  response : String
  agentsUsed : List String
  toolsUsed : List String
  executionSteps : List ExecutionStep
  totalSteps : Nat
  comparisonMode : Bool

/-- The sub-agent check of lines 514-517: some assembled agent has exactly
this tool name. -/
def isSubAgentName (agents : List SubAgent) (toolName : String) : Bool :=
  agents.any (fun a => a.name == toolName)

/-- Python `set.add` on a set modelled as a duplicate-free insertion-ordered
list. -/
def setInsert (s : List String) (x : String) : List String :=
  if s.contains x then s else s ++ [x]

/-- Accumulator of the step-analysis loop of
`process_request_with_details` (lines 500-527): the `tools_used` and
`agents_used` sets and the recorded execution steps. -/
structure UsageAcc where
  toolsUsed : List String
  agentsUsed : List String
  steps : List ExecutionStep

/-- Embedding of the loop over `intermediate_steps` (lines 504-527): every
step adds its tool name to `tools_used`, adds it to `agents_used` exactly
when it names an assembled sub-agent, and records an execution step. -/
def collectUsage (agents : List SubAgent) (acc : UsageAcc) :
    List (AgentAction × String) → UsageAcc
  | [] => acc
  | (action, obs) :: rest =>
      let toolsUsed := setInsert acc.toolsUsed action.tool
      let agentsUsed :=
        if isSubAgentName agents action.tool then setInsert acc.agentsUsed action.tool
        else acc.agentsUsed
      collectUsage agents ⟨toolsUsed, agentsUsed, acc.steps ++ [⟨action.tool, action.toolInput, obs⟩]⟩ rest

/-- Outcome of the single-agent executor invocation
(`self.agent_executor.invoke`): either an output with intermediate steps,
or a raised exception caught by the surrounding handler. -/
inductive DispatchOutcome where
  | success (output : String) (intermediateSteps : List (AgentAction × String))
  | failure (err : String)

/-- Embedding of the single-agent branch of
`process_request_with_details` (lines 490-536) and of its exception handler
(lines 538-549): on success the trace is collected from the intermediate
steps, on an exception an error result with empty trace is returned. -/
def singleDispatch (agents : List SubAgent) (outcome : DispatchOutcome) : ExecutionResult :=
  match outcome with
  | .success output steps =>
      let acc := collectUsage agents ⟨[], [], []⟩ steps
      { response := output, agentsUsed := acc.agentsUsed, toolsUsed := acc.toolsUsed,
        executionSteps := acc.steps, totalSteps := steps.length, comparisonMode := false }
  | .failure err =>
      { response := "Master Agent encountered an error: " ++ err,
        agentsUsed := [], toolsUsed := [], executionSteps := [],
        totalSteps := 0, comparisonMode := false }

/-- The per-agent responses collected by `_call_multiple_agents`, keyed by
agent name. -/
def lookupResponse (responses : List (String × String)) (name : String) : Option String :=
  (responses.find? (fun p => p.1 == name)).map Prod.snd

/-- Embedding of the comparison branch of `process_request_with_details`
(lines 459-486): the result lists the matched agents as both agents and
tools, records one step per target plus the summarizer step, and counts
`len(matching_agents) + 1` total steps. -/
def comparisonDispatch (matching : List SubAgent)
    (agentResponses : List (String × String)) (comparisonSummary : String) :
    ExecutionResult :=
  { response := comparisonSummary,
    agentsUsed := matching.map (fun a => a.name),
    toolsUsed := matching.map (fun a => a.name),
    executionSteps :=
      matching.map (fun a =>
        ⟨a.name, "Comparison query about business models",
         (lookupResponse agentResponses a.name).getD "No response"⟩)
      ++ [⟨"comparison_summarizer", "Summarize comparison responses",
           "Comparison summary generated"⟩],
    totalSteps := matching.length + 1,
    comparisonMode := true }

/-- Embedding of `MasterAgent.process_request_with_details` (lines
435-549).  The decision service's behaviour is a parameter: the per-target
responses and the synthesis text for the comparison branch (failures there
are absorbed into those strings by `_call_multiple_agents` and
`_summarize_comparison_responses`), and the executor outcome for the
single-agent branch. -/
def processRequestWithDetails (userInput : String) (agents : List SubAgent)
    (agentResponses : List (String × String)) (comparisonSummary : String)
    (outcome : DispatchOutcome) : ExecutionResult :=
  if (detectComparisonRequest userInput).isComparison then
    if 2 ≤ (findAgentsByModelType (detectComparisonRequest userInput).models agents).length then
      comparisonDispatch (findAgentsByModelType (detectComparisonRequest userInput).models agents)
        agentResponses comparisonSummary
    else
      singleDispatch agents outcome
  else
    singleDispatch agents outcome

/-! Configuration loading and reload, from
`AgentManager.load_agents_from_config` (`core/agent_manager.py` lines
274-309) and `AgentSystemManager.reload_agents` (`api_server.py` lines
276-296). -/

/-- What reading and parsing the `agents.json` source can yield: a missing
file, malformed JSON, a JSON value that is not a list, or a parsed list of
agent configurations. -/
inductive ConfigSource where
  | missing (path : String)
  | invalidJson (msg : String)
  | notAList
  | parsed (configs : List AgentConfig)

/-- Embedding of `AgentManager.load_agents_from_config`: load failures
raise, per-agent assembly failures are caught and the agent skipped. -/
def loadAgentsFromConfig (manifest : List ToolConfig) (src : ConfigSource) :
    Except String (List SubAgent) :=
  match src with
  | .missing path => .error ("Configuration file not found: " ++ path)
  | .invalidJson msg => .error ("Invalid JSON format: " ++ msg)
  | .notAList => .error "Configuration file must contain a list of agent configurations"
  | .parsed configs =>
      .ok (configs.filterMap (fun c => (createSubAgent manifest c).toOption))

/-- Embedding of `MasterAgent._sanitize_sub_agent_tools` applied to a
whole agent list (done by `MasterAgent.__init__` and
`MasterAgent.update_sub_agents`). -/
def sanitizeSubAgentTools (agents : List SubAgent) : List SubAgent :=
  agents.map (fun a => { a with name := sanitizeName a.name })

/-- The state of `AgentSystemManager` relevant to routing: the master
agent's published sub-agent set (`None` before initialization). -/
structure SystemState where
  masterAgentSet : Option (List SubAgent)

/-- Embedding of `AgentSystemManager.reload_agents` (`api_server.py` lines
276-296): a raising load is caught, logged and re-raised with the state
untouched; an empty result keeps the existing configuration; otherwise the
master agent's sub-agent set is replaced by the sanitized new set
(`MasterAgent.update_sub_agents`, or `create_master_agent` when no master
exists — both publish the sanitized new set). -/
def reloadAgents (st : SystemState) (manifest : List ToolConfig) (src : ConfigSource) :
    SystemState × Except String Nat :=
  match loadAgentsFromConfig manifest src with
  | .error e => (st, .error e)
  | .ok newSubAgents =>
      if newSubAgents.isEmpty then (st, .ok 0)
      else ({ masterAgentSet := some (sanitizeSubAgentTools newSubAgents) },
            .ok newSubAgents.length)

/-! Search-query extraction, shared verbatim by
`DynamicTool._execute_google_search` (lines 207-225) and
`DynamicTool._execute_knowledge_search_tool` (lines 291-309). -/

/-- The standard query alias keys (line 209 and line 293). -/
def possibleQueryKeys : List String :=
  ["query", "q", "search_query", "search_term", "text", "input"]

/-- The first standard-key loop: the first alias key bound to a truthy
value, together with that value. -/
def queryFromStandardKeys (params : PDict) : List String → Option (String × PValue)
  | [] => none
  | k :: rest =>
      match dictLookup params k with
      | some v => if v.truthy then some (k, v) else queryFromStandardKeys params rest
      | none => queryFromStandardKeys params rest

/-- Python `s.endswith(suffix)`. -/
def strEndsWith (s suffix : String) : Bool :=
  suffix.data.isSuffixOf s.data

/-- Python `s.strip()`: drop whitespace on both ends. -/
def pyStripChars (cs : List Char) : List Char :=
  ((cs.dropWhile Char.isWhitespace).reverse.dropWhile Char.isWhitespace).reverse

/-- The key-suffix filter of the fallback scan:
`key.endswith("_key") or key.endswith("_id") or key.endswith("_token")`. -/
def isCredentialStyleKey (k : String) : Bool :=
  strEndsWith k "_key" || strEndsWith k "_id" || strEndsWith k "_token"

/-- Condition of the fallback scan: the value is a string with a nonempty
strip and the key does not carry a credential-style suffix. -/
def fallbackPred (p : String × PValue) : Bool :=
  match p.2 with
  | .vStr s => !(pyStripChars s.data).isEmpty && !(isCredentialStyleKey p.1)
  | _ => false

/-- The fallback scan (lines 217-221 and 301-305): the first entry
satisfying `fallbackPred`. -/
def fallbackQueryScan (params : PDict) : Option (String × PValue) :=
  params.find? fallbackPred

/-- The full query lookup of both search handlers: standard alias keys
first, then the fallback scan over the remaining arguments. -/
def findSearchQuery (params : PDict) : Option (String × PValue) :=
  match queryFromStandardKeys params possibleQueryKeys with
  | some kv => some kv
  | none => fallbackQueryScan params

/-! Demonstration data used by witnesses and counterexamples: a web-search
tool definition of the shape `tools.json` declares (a required
non-credential `query`, an optional `num_results`, and two required
credentials). -/

/-- Demonstration manifest entry for the web-search tool. -/
def demoSearchToolDef : ToolConfig :=
  { id := "google_search_tool", name := "Google Search",
    description := "Search the web with Google", file := "google_search_tool.py",
    parameters :=
      [("query", { type := "string", required := true, default := none, isCredential := false }),
       ("num_results", { type := "integer", required := false,
                         default := some (PValue.vInt 5), isCredential := false }),
       ("google_api_key", { type := "string", required := true, default := none,
                            isCredential := true }),
       ("google_cse_id", { type := "string", required := true, default := none,
                           isCredential := true })] }

/-- Demonstration manifest holding just the web-search tool. -/
def demoManifest : List ToolConfig := [demoSearchToolDef]

/-- Demonstration agent definition listing the same tool id twice. -/
def demoDupToolAgentConfig : AgentConfig :=
  { agentName := "HR_Agent", description := "Human resources",
    tools := ["google_search_tool", "google_search_tool"], toolConfigs := [] }

/-! Theorems for the claims. -/

/-- C1 (counterexample): with the agent configuration binding the
credential `google_api_key` and the decision service supplying the same
key at call time, the merged parameter map carries the call-time value,
not the configured one — the configuration does not win the collision. -/
theorem c1_counterexample :
    dictLookup (mergedParams [("google_api_key", PValue.vStr "agent-secret")]
        [("google_api_key", PValue.vStr "model-supplied")]) "google_api_key"
      = some (PValue.vStr "model-supplied")
    ∧ PValue.vStr "model-supplied" ≠ PValue.vStr "agent-secret" := by
  refine ⟨rfl, ?_⟩
  intro h
  injection h with h'
  exact absurd h' (by decide)

/-- C1 (amended): the parameter map passed to the tool handler is the
Python merge `{**agent_config, **kwargs}`, in which the decision service's
call-time argument wins every key collision; a configured parameter value
(credential or not) reaches the handler only for keys the call-time
arguments do not bind. -/
theorem c1_merged_params_calltime_wins (agentConfig kwargs : PDict) (k : String) :
    dictLookup (mergedParams agentConfig kwargs) k =
      match dictLookup kwargs k with
      | some v => some v
      | none => dictLookup agentConfig k :=
  dictLookup_pyMerge agentConfig kwargs k

/-- C2 (counterexample): the demonstration tool marks `query` as required,
non-credential and without a default, the agent tool configuration is
empty, yet building the tool instance succeeds — no build error is
raised. -/
theorem c2_counterexample :
    List.find? (fun p => p.1 == "query") demoSearchToolDef.parameters
      = some ("query", { type := "string", required := true, default := none,
                         isCredential := false })
    ∧ buildSucceeds demoManifest "google_search_tool" [] = true :=
  ⟨rfl, rfl⟩

/-- C2 (amended): building a tool instance fails exactly when the tool id
has no manifest entry; the agent tool configuration is never consulted at
build time, and a parameter marked required and non-credential with no
default is instead compiled into a required field of the call-time
argument schema. -/
theorem c2_build_error_only_for_unknown_id (manifest : List ToolConfig)
    (toolId : String) (agentToolConfig : PDict) :
    (buildSucceeds manifest toolId agentToolConfig = true
        ↔ (getToolConfig manifest toolId).isSome = true)
    ∧ (∀ tc, getToolConfig manifest toolId = some tc →
        ∀ pname p, (pname, p) ∈ tc.parameters → p.required = true →
          p.isCredential = false → p.default = none →
          (⟨pname, true, none⟩ : SchemaField) ∈ compileSchema tc.parameters) := by
  constructor
  · unfold buildSucceeds createDynamicTool
    cases h : getToolConfig manifest toolId <;> simp [h]
  · intro tc htc pname p hmem hreq hcred hdef
    have hfield : compileSchemaField pname p = ⟨pname, true, none⟩ := by
      have hb : (p.required && p.default.isNone) = true := by rw [hreq, hdef]; rfl
      unfold compileSchemaField
      split_ifs <;> rfl
    have hmem2 : (pname, p) ∈ tc.parameters.filter (fun q => !q.2.isCredential) := by
      rw [List.mem_filter]
      exact ⟨hmem, by simp [hcred]⟩
    unfold compileSchema
    rw [List.mem_map]
    exact ⟨(pname, p), hmem2, hfield⟩

/-- C2 (witness): the amended theorem applied to the demonstration
manifest shows the missing required `query` surfacing as a required
call-time schema field. -/
theorem c2_build_error_only_for_unknown_id_witness :
    (⟨"query", true, none⟩ : SchemaField) ∈ compileSchema demoSearchToolDef.parameters :=
  (c2_build_error_only_for_unknown_id demoManifest "google_search_tool" []).2
    demoSearchToolDef rfl "query" _ (List.mem_cons_self _ _) rfl rfl rfl

/-- C5: a reload whose load step raises, or which assembles zero agents,
returns with the published state unchanged; a successful nonempty reload
publishes exactly the sanitized new agent set. -/
theorem c5_reload_atomicity (st : SystemState) (manifest : List ToolConfig)
    (src : ConfigSource) :
    (∀ e, loadAgentsFromConfig manifest src = .error e →
        reloadAgents st manifest src = (st, .error e))
    ∧ (loadAgentsFromConfig manifest src = .ok [] →
        reloadAgents st manifest src = (st, .ok 0))
    ∧ (∀ agents, loadAgentsFromConfig manifest src = .ok agents → agents ≠ [] →
        (reloadAgents st manifest src).1.masterAgentSet
          = some (sanitizeSubAgentTools agents)) := by
  refine ⟨?_, ?_, ?_⟩
  · intro e h
    unfold reloadAgents
    rw [h]
  · intro h
    unfold reloadAgents
    rw [h]
    rfl
  · intro agents h hne
    unfold reloadAgents
    rw [h]
    have hemp : agents.isEmpty = false := by
      cases agents with
      | nil => exact absurd rfl hne
      | cons a t => rfl
    simp [hemp]

/-- C5 (witness): a reload on syntactically invalid JSON surfaces the load
error and leaves the (empty) published state untouched. -/
theorem c5_reload_atomicity_witness :
    reloadAgents ⟨none⟩ [] (ConfigSource.invalidJson "Expecting value")
      = (⟨none⟩, .error "Invalid JSON format: Expecting value") :=
  (c5_reload_atomicity ⟨none⟩ [] (ConfigSource.invalidJson "Expecting value")).1
    "Invalid JSON format: Expecting value" rfl

/-- C6 (counterexample): an agent definition listing the same resolvable
tool id twice gets two tool instances with the same resolved display name
— duplicates are not ignored and no display-name deduplication happens on
the dynamic path. -/
theorem c6_counterexample :
    (createToolsForAgent demoManifest demoDupToolAgentConfig).map (fun t => t.displayName)
      = ["Google Search", "Google Search"]
    ∧ (createToolsForAgent demoManifest demoDupToolAgentConfig).length = 2 :=
  ⟨rfl, rfl⟩

/-- C6 (amended): every occurrence of a resolvable tool id in the agent's
ordered tool-id list contributes exactly one tool instance (named by that
id), duplicates included; unresolvable ids are dropped.  The display-name
deduplication exists only on the legacy-registry attach path of
`create_sub_agent`, which never fires because the legacy registry is
always empty. -/
theorem c6_one_instance_per_occurrence (manifest : List ToolConfig) (config : AgentConfig) :
    (createToolsForAgent manifest config).map (fun t => t.name)
      = config.tools.filter (fun toolId => (getToolConfig manifest toolId).isSome) := by
  rcases config with ⟨n, d, ids, cfgs⟩
  simp only [createToolsForAgent]
  induction ids with
  | nil => rfl
  | cons toolId rest ih =>
    rw [List.filterMap_cons, List.filter_cons]
    cases h : getToolConfig manifest toolId with
    | none => simpa [h] using ih
    | some tc => simpa [h, createDynamicTool] using ih

/-- C7: every sanitized name matches the Gemini function-name grammar
`^[A-Za-z_][A-Za-z0-9_.-]{0,63}$`. -/
theorem c7_sanitize_matches_gemini_grammar (s : String) :
    matchesGeminiName (sanitizeName s) = true := by
  obtain ⟨hall, hne, hhead, hlen⟩ := sanitizeChars_spec s.data
  show matchesGeminiChars (sanitizeChars s.data) = true
  cases hl : sanitizeChars s.data with
  | nil => exact absurd hl hne
  | cons c rest =>
    rw [hl] at hall hlen
    have h1 : startChar c = true := hhead c rest hl
    have h2 : rest.length ≤ 63 := by
      rw [List.length_cons] at hlen
      omega
    have h3 : rest.all validChar = true := by
      simp only [List.all_cons, Bool.and_eq_true] at hall
      exact hall.2
    simp [matchesGeminiChars, h1, h2, h3]

/-- C8: the sanitizer is idempotent. -/
theorem c8_sanitize_idempotent (s : String) :
    sanitizeName (sanitizeName s) = sanitizeName s := by
  obtain ⟨hall, hne, hhead, hlen⟩ := sanitizeChars_spec s.data
  have hfix : sanitizeChars (sanitizeChars s.data) = sanitizeChars s.data :=
    sanitizeChars_fixed _ hall hhead hlen hne
  exact congrArg String.mk hfix

/-- Helper: the standard-key loop only ever returns one of the scanned
keys. -/
theorem queryFromStandardKeys_mem (params : PDict) (keys : List String)
    (k : String) (v : PValue) (h : queryFromStandardKeys params keys = some (k, v)) :
    k ∈ keys := by
  induction keys with
  | nil => simp [queryFromStandardKeys] at h
  | cons k0 rest ih =>
    unfold queryFromStandardKeys at h
    split at h
    · split at h
      · injection h with h2
        have hk : k0 = k := congrArg Prod.fst h2
        rw [← hk]
        exact List.mem_cons_self _ _
      · exact List.mem_cons_of_mem _ (ih h)
    · exact List.mem_cons_of_mem _ (ih h)

/-- C10: neither query-lookup phase of the search handlers ever selects a
parameter whose key ends in `_key`, `_id` or `_token`: whatever entry
`findSearchQuery` returns, its key is not credential-style. -/
theorem c10_query_never_credential_key (params : PDict) (k : String) (v : PValue)
    (h : findSearchQuery params = some (k, v)) :
    isCredentialStyleKey k = false := by
  unfold findSearchQuery at h
  cases hstd : queryFromStandardKeys params possibleQueryKeys with
  | some kv =>
    rw [hstd] at h
    injection h with h2
    rw [h2] at hstd
    have hk : k ∈ possibleQueryKeys :=
      queryFromStandardKeys_mem params possibleQueryKeys k v hstd
    have hall : ∀ x ∈ possibleQueryKeys, isCredentialStyleKey x = false := by decide
    exact hall k hk
  | none =>
    rw [hstd] at h
    have hp := List.find?_some h
    cases v with
    | vStr s =>
      simp only [fallbackPred, Bool.and_eq_true, Bool.not_eq_true'] at hp
      exact hp.2
    | vInt n => simp [fallbackPred] at hp
    | vDict l => simp [fallbackPred] at hp
    | vNone => simp [fallbackPred] at hp

/-- C10 (witness): with only a credential key and a free-text `message`
entry present, the fallback selects `message`, whose key is not
credential-style. -/
theorem c10_query_never_credential_key_witness :
    isCredentialStyleKey "message" = false :=
  c10_query_never_credential_key
    [("google_api_key", PValue.vStr "k1"), ("message", PValue.vStr "hello")]
    "message" (PValue.vStr "hello") rfl

/-! Helper lemmas for the routing and trace theorems. -/

/-- Membership in the modelled `set.add`. -/
theorem mem_setInsert (s : List String) (x y : String) :
    y ∈ setInsert s x ↔ (y ∈ s ∨ y = x) := by
  unfold setInsert
  by_cases h : s.contains x
  · rw [if_pos h]
    constructor
    · exact Or.inl
    · rintro (hy | rfl)
      · exact hy
      · simpa using h
  · rw [if_neg h]
    simp

/-- Invariant of the step-analysis loop: the recorded step count grows by
one per intermediate step, and membership in the `agents_used` set is
exactly membership in `tools_used` restricted to assembled agent names. -/
theorem collectUsage_spec (agents : List SubAgent) (l : List (AgentAction × String)) :
    ∀ acc : UsageAcc,
      (∀ y, y ∈ acc.agentsUsed ↔ (y ∈ acc.toolsUsed ∧ isSubAgentName agents y = true)) →
      ((collectUsage agents acc l).steps.length = acc.steps.length + l.length ∧
        ∀ y, y ∈ (collectUsage agents acc l).agentsUsed ↔
          (y ∈ (collectUsage agents acc l).toolsUsed ∧ isSubAgentName agents y = true)) := by
  induction l with
  | nil =>
    intro acc hinv
    exact ⟨by simp [collectUsage], hinv⟩
  | cons st rest ih =>
    intro acc hinv
    obtain ⟨action, obs⟩ := st
    have hinv2 : ∀ y,
        y ∈ (if isSubAgentName agents action.tool
              then setInsert acc.agentsUsed action.tool else acc.agentsUsed) ↔
          (y ∈ setInsert acc.toolsUsed action.tool ∧ isSubAgentName agents y = true) := by
      intro y
      by_cases hA : isSubAgentName agents action.tool
      · rw [if_pos hA, mem_setInsert, mem_setInsert]
        constructor
        · rintro (hy | rfl)
          · obtain ⟨h1, h2⟩ := (hinv y).mp hy
            exact ⟨Or.inl h1, h2⟩
          · exact ⟨Or.inr rfl, hA⟩
        · rintro ⟨hy | rfl, h2⟩
          · exact Or.inl ((hinv y).mpr ⟨hy, h2⟩)
          · exact Or.inr rfl
      · rw [if_neg hA, mem_setInsert]
        constructor
        · intro hy
          obtain ⟨h1, h2⟩ := (hinv y).mp hy
          exact ⟨Or.inl h1, h2⟩
        · rintro ⟨hy | rfl, h2⟩
          · exact (hinv y).mpr ⟨hy, h2⟩
          · exact absurd h2 hA
    obtain ⟨hlen, hmem⟩ := ih
      ⟨setInsert acc.toolsUsed action.tool,
       (if isSubAgentName agents action.tool
        then setInsert acc.agentsUsed action.tool else acc.agentsUsed),
       acc.steps ++ [⟨action.tool, action.toolInput, obs⟩]⟩ hinv2
    constructor
    · show (collectUsage agents
          ⟨setInsert acc.toolsUsed action.tool,
           (if isSubAgentName agents action.tool
            then setInsert acc.agentsUsed action.tool else acc.agentsUsed),
           acc.steps ++ [⟨action.tool, action.toolInput, obs⟩]⟩ rest).steps.length
        = acc.steps.length + (rest.length + 1)
      rw [hlen]
      simp only [List.length_append, List.length_cons, List.length_nil]
      omega
    · exact hmem

/-- Invariants of the single-agent branch. -/
theorem singleDispatch_invariants (agents : List SubAgent) (outcome : DispatchOutcome) :
    (singleDispatch agents outcome).totalSteps
        = (singleDispatch agents outcome).executionSteps.length
    ∧ (∀ y, y ∈ (singleDispatch agents outcome).agentsUsed ↔
        (y ∈ (singleDispatch agents outcome).toolsUsed ∧ isSubAgentName agents y = true))
    ∧ (singleDispatch agents outcome).comparisonMode = false := by
  cases outcome with
  | failure err =>
    refine ⟨rfl, ?_, rfl⟩
    intro y
    simp [singleDispatch]
  | success output steps =>
    have hinv0 : ∀ y, y ∈ (⟨[], [], []⟩ : UsageAcc).agentsUsed ↔
        (y ∈ (⟨[], [], []⟩ : UsageAcc).toolsUsed ∧ isSubAgentName agents y = true) := by
      simp
    obtain ⟨hlen, hmem⟩ := collectUsage_spec agents steps ⟨[], [], []⟩ hinv0
    refine ⟨?_, hmem, rfl⟩
    show steps.length = (collectUsage agents ⟨[], [], []⟩ steps).steps.length
    rw [hlen]
    simp

/-- Every comparison target comes from the assembled agent list. -/
theorem mem_of_findAgents (modelTypes : List String) (agents : List SubAgent)
    (a : SubAgent) (ha : a ∈ findAgentsByModelType modelTypes agents) : a ∈ agents := by
  unfold findAgentsByModelType at ha
  rw [List.mem_filterMap] at ha
  obtain ⟨mt, _, hfind⟩ := ha
  exact List.mem_of_find?_eq_some hfind

/-- The name of an assembled agent passes the sub-agent name check. -/
theorem isSubAgentName_of_mem (agents : List SubAgent) (a : SubAgent) (ha : a ∈ agents) :
    isSubAgentName agents a.name = true := by
  unfold isSubAgentName
  rw [List.any_eq_true]
  exact ⟨a, ha, by simp⟩

/-- Invariants of the comparison branch, for targets drawn from the
assembled agent list. -/
theorem comparisonDispatch_invariants (agents matching : List SubAgent)
    (hsub : ∀ a ∈ matching, a ∈ agents)
    (agentResponses : List (String × String)) (comparisonSummary : String) :
    (comparisonDispatch matching agentResponses comparisonSummary).totalSteps
        = (comparisonDispatch matching agentResponses comparisonSummary).executionSteps.length
    ∧ (∀ y, y ∈ (comparisonDispatch matching agentResponses comparisonSummary).agentsUsed ↔
        (y ∈ (comparisonDispatch matching agentResponses comparisonSummary).toolsUsed
          ∧ isSubAgentName agents y = true)) := by
  constructor
  · simp [comparisonDispatch]
  · intro y
    show y ∈ matching.map (fun a => a.name) ↔
        (y ∈ matching.map (fun a => a.name) ∧ isSubAgentName agents y = true)
    constructor
    · intro hy
      refine ⟨hy, ?_⟩
      rw [List.mem_map] at hy
      obtain ⟨a, ha, rfl⟩ := hy
      exact isSubAgentName_of_mem agents a (hsub a ha)
    · exact fun h => h.1

/-- C3: the comparison-detection flag is set exactly when some phrase of
the fixed comparison list occurs (case-insensitively) in the input and at
least two distinct categories are detected; the detected category list is
duplicate-free and holds exactly the categories with an occurring alias;
and with no comparison phrase every detailed dispatch runs the
single-agent branch, whatever the agent set. -/
theorem c3_comparison_gating (userInput : String) :
    ((detectComparisonRequest userInput).isComparison = true ↔
        ((∃ kw ∈ comparisonKeywords, strInStr (pyLower kw) (pyLower userInput) = true)
          ∧ 2 ≤ (detectComparisonRequest userInput).models.length))
    ∧ (detectComparisonRequest userInput).models.Nodup
    ∧ (∀ c, c ∈ (detectComparisonRequest userInput).models ↔
        ∃ aliases, (c, aliases) ∈ modelKeywords
          ∧ ∃ kw ∈ aliases, strInStr (pyLower kw) (pyLower userInput) = true)
    ∧ (∀ (agents : List SubAgent) (agentResponses : List (String × String))
          (comparisonSummary : String) (outcome : DispatchOutcome),
        (∀ kw ∈ comparisonKeywords, strInStr (pyLower kw) (pyLower userInput) = false) →
        processRequestWithDetails userInput agents agentResponses comparisonSummary outcome
          = singleDispatch agents outcome) := by
  refine ⟨?_, ?_, ?_, ?_⟩
  · simp only [detectComparisonRequest, Bool.and_eq_true, List.any_eq_true,
      decide_eq_true_eq]
  · have hsub : ((modelKeywords.filter
        (fun mk => mk.2.any (fun kw => strInStr (pyLower kw) (pyLower userInput)))).map
          Prod.fst).Sublist (modelKeywords.map Prod.fst) :=
      List.Sublist.map Prod.fst (List.filter_sublist modelKeywords)
    have hnd : (modelKeywords.map Prod.fst).Nodup := by decide
    show ((modelKeywords.filter _).map Prod.fst).Nodup
    exact List.Nodup.sublist hsub hnd
  · intro c
    simp only [detectComparisonRequest, List.mem_map, List.mem_filter, List.any_eq_true]
    constructor
    · rintro ⟨⟨c2, aliases⟩, ⟨hmem, hkw⟩, rfl⟩
      exact ⟨aliases, hmem, hkw⟩
    · rintro ⟨aliases, hmem, hkw⟩
      exact ⟨(c, aliases), ⟨hmem, hkw⟩, rfl⟩
  · intro agents agentResponses comparisonSummary outcome hnone
    have hany : comparisonKeywords.any
        (fun kw => strInStr (pyLower kw) (pyLower userInput)) = false := by
      rw [List.any_eq_false]
      intro kw hkw
      simp [hnone kw hkw]
    have hcmp : (detectComparisonRequest userInput).isComparison = false := by
      simp [detectComparisonRequest, hany]
    unfold processRequestWithDetails
    rw [if_neg (by simp [hcmp])]

/-- C3 (witness): an input with no comparison phrase dispatches through the
single-agent branch. -/
theorem c3_comparison_gating_witness :
    processRequestWithDetails "hello" [] [] "" (DispatchOutcome.failure "boom")
      = singleDispatch [] (DispatchOutcome.failure "boom") :=
  (c3_comparison_gating "hello").2.2.2 [] [] "" (DispatchOutcome.failure "boom") (by decide)

/-- C4: when comparison detection fires but fewer than two target agents
resolve from the detected categories, the detailed dispatch falls back to
the single-agent branch and reports a non-comparison result — it does not
error. -/
theorem c4_comparison_fallback (userInput : String) (agents : List SubAgent)
    (agentResponses : List (String × String)) (comparisonSummary : String)
    (outcome : DispatchOutcome)
    (hdet : (detectComparisonRequest userInput).isComparison = true)
    (hfew : (findAgentsByModelType (detectComparisonRequest userInput).models agents).length < 2) :
    processRequestWithDetails userInput agents agentResponses comparisonSummary outcome
      = singleDispatch agents outcome
    ∧ (processRequestWithDetails userInput agents agentResponses comparisonSummary
        outcome).comparisonMode = false := by
  have heq : processRequestWithDetails userInput agents agentResponses comparisonSummary outcome
      = singleDispatch agents outcome := by
    unfold processRequestWithDetails
    rw [if_pos hdet, if_neg (by omega)]
  refine ⟨heq, ?_⟩
  rw [heq]
  exact (singleDispatch_invariants agents outcome).2.2

/-- C4 (witness): a comparison phrase with both category keywords, but an
agent set in which only no category resolves, yields the single-agent
result. -/
theorem c4_comparison_fallback_witness :
    processRequestWithDetails "so sánh fnb và booking"
        [⟨"HR_Agent", "Human resources", []⟩] [] ""
        (DispatchOutcome.success "ok" [])
      = singleDispatch [⟨"HR_Agent", "Human resources", []⟩]
          (DispatchOutcome.success "ok" [])
    ∧ (processRequestWithDetails "so sánh fnb và booking"
        [⟨"HR_Agent", "Human resources", []⟩] [] ""
        (DispatchOutcome.success "ok" [])).comparisonMode = false :=
  c4_comparison_fallback "so sánh fnb và booking"
    [⟨"HR_Agent", "Human resources", []⟩] [] ""
    (DispatchOutcome.success "ok" []) (by decide) (by decide)

/-- C9: every detailed execution result — single mode, comparison mode or
the error path — counts exactly its recorded steps, its used agents are a
subset of its used tools, and the used agents are exactly the used tools
whose name is an assembled agent's name. -/
theorem c9_trace_invariants (userInput : String) (agents : List SubAgent)
    (agentResponses : List (String × String)) (comparisonSummary : String)
    (outcome : DispatchOutcome) :
    (processRequestWithDetails userInput agents agentResponses comparisonSummary
        outcome).totalSteps
      = (processRequestWithDetails userInput agents agentResponses comparisonSummary
          outcome).executionSteps.length
    ∧ (∀ y, y ∈ (processRequestWithDetails userInput agents agentResponses comparisonSummary
          outcome).agentsUsed →
        y ∈ (processRequestWithDetails userInput agents agentResponses comparisonSummary
          outcome).toolsUsed)
    ∧ (∀ y, y ∈ (processRequestWithDetails userInput agents agentResponses comparisonSummary
          outcome).agentsUsed ↔
        (y ∈ (processRequestWithDetails userInput agents agentResponses comparisonSummary
          outcome).toolsUsed ∧ isSubAgentName agents y = true)) := by
  unfold processRequestWithDetails
  by_cases h1 : (detectComparisonRequest userInput).isComparison = true
  · rw [if_pos h1]
    by_cases h2 : 2 ≤ (findAgentsByModelType (detectComparisonRequest userInput).models
        agents).length
    · rw [if_pos h2]
      have hsub : ∀ a ∈ findAgentsByModelType (detectComparisonRequest userInput).models agents,
          a ∈ agents :=
        fun a ha => mem_of_findAgents _ _ a ha
      obtain ⟨ha, hb⟩ := comparisonDispatch_invariants agents _ hsub agentResponses
        comparisonSummary
      exact ⟨ha, fun y hy => ((hb y).mp hy).1, hb⟩
    · rw [if_neg h2]
      obtain ⟨ha, hb, _⟩ := singleDispatch_invariants agents outcome
      exact ⟨ha, fun y hy => ((hb y).mp hy).1, hb⟩
  · rw [if_neg h1]
    obtain ⟨ha, hb, _⟩ := singleDispatch_invariants agents outcome
    exact ⟨ha, fun y hy => ((hb y).mp hy).1, hb⟩

/-- C9 (witness): in a concrete comparison dispatch the used agent
`fnb_agent` is also a used tool. -/
theorem c9_trace_invariants_witness :
    "fnb_agent" ∈ (processRequestWithDetails "so sánh fnb và booking"
        [⟨"fnb_agent", "FNB", []⟩, ⟨"booking_hotel", "Booking", []⟩] [] "summary"
        (DispatchOutcome.success "ok" [])).toolsUsed :=
  (c9_trace_invariants "so sánh fnb và booking"
      [⟨"fnb_agent", "FNB", []⟩, ⟨"booking_hotel", "Booking", []⟩] [] "summary"
      (DispatchOutcome.success "ok" [])).2.1 "fnb_agent" (by decide)

end AgentPlatform
